import Mathlib

/-!
# Verification of the PR release checker worker (`src/index.js`)

A shallow embedding of the two core components of the worker:

* `fetchPRReleaseStatus` — the resolver that queries the upstream
  source-control API (fetch PR, fetch ref, compare commits) and classifies
  a pull request against a target release tag or the moving `dev` branch;
* `checkPRInRelease` — the cache gate that decides whether a stored
  record is reused or refreshed, and stores refreshed results.

Upstream HTTP interactions are modelled by an `Upstream` record of response
functions; JavaScript string operations (`includes`, `endsWith`, template
interpolation of numbers) are modelled by executable character-list
functions.  Times are modelled as integer milliseconds since the epoch,
matching JavaScript `Date` arithmetic.
-/

namespace PRChecker

/-- Model of JavaScript `s.includes(sub)`: `sub` occurs contiguously in `s`.
Implemented as a scan over the character list. -/
def listIncludes (sub : List Char) : List Char → Bool
  | [] => sub.isPrefixOf []
  | c :: t => sub.isPrefixOf (c :: t) || listIncludes sub t

/-- JavaScript `s.includes(sub)` on strings. -/
def strIncludes (s sub : String) : Bool :=
  listIncludes sub.data s.data

/-- JavaScript `s.endsWith(suf)` on strings. -/
def strEndsWith (s suf : String) : Bool :=
  suf.data.isSuffixOf s.data

/-- The pull-request metadata the resolver reads from the upstream
`GET /pulls/{n}` response: `merged`, `merge_commit_sha`, `merged_at`,
`title`. -/
structure PRData where
  merged : Bool
  merge_commit_sha : String
  merged_at : String
  title : String
deriving DecidableEq, Repr

/-- One commit entry of the range-comparison response; the resolver reads
only `commit.message`. -/
structure CommitInfo where
  message : String
deriving DecidableEq, Repr

/-- The range-comparison (`compare/{base}...{head}`) response: the relation
`status` (one of "identical", "ahead", "behind", "diverged") and the list
of commits in the range. -/
structure CompareData where
  status : String
  commits : List CommitInfo
deriving DecidableEq, Repr

/-- An upstream HTTP response: `ok` with a parsed payload, or `err` with the
non-success HTTP status code (`!response.ok`). -/
inductive UpstreamResp (α : Type) where
  | ok : α → UpstreamResp α
  | err : Nat → UpstreamResp α
deriving DecidableEq, Repr

/-- The upstream source-control API, as response functions for the three
endpoints the resolver consumes.  `pr owner repo n` answers
`GET /repos/{owner}/{repo}/pulls/{n}`; `ref owner repo path` answers
`GET /repos/{owner}/{repo}/git/ref/{path}` with the pointed-to commit SHA;
`compare owner repo base head` answers
`GET /repos/{owner}/{repo}/compare/{base}...{head}`. -/
structure Upstream where
  pr : String → String → Nat → UpstreamResp PRData
  ref : String → String → String → UpstreamResp String
  compare : String → String → String → String → UpstreamResp CompareData

/-- An upstream call made by the resolver, in order. -/
inductive UpstreamCall where
  | fetchPR (owner repo : String) (prNumber : Nat)
  | fetchRef (owner repo path : String)
  | compareCommits (owner repo base head : String)
deriving DecidableEq, Repr

/-- The Status Record returned by the resolver and stored in the cache.
Fields absent from a given JavaScript result object are `none`. -/
structure StatusRecord where
  status : String
  pr_number : Nat
  release_tag : String
  error : Option String := none
  message : Option String := none
  target_type : Option String := none
  merge_commit_sha : Option String := none
  pr_merged_at : Option String := none
  is_in_release : Option Bool := none
  is_cherry_picked : Option Bool := none
  cached_at : Option String := none
deriving DecidableEq, Repr

/-- `releaseTag.endsWith('dev')`: the naming convention for the moving
development branch. -/
def isDevBranch (releaseTag : String) : Bool :=
  strEndsWith releaseTag "dev"

/-- The git ref path the resolver resolves: the fixed `heads/dev` branch for
dev targets, otherwise the tag of the same name. -/
def refPath (releaseTag : String) : String :=
  if isDevBranch releaseTag then "heads/dev" else "tags/" ++ releaseTag

/-- The error message produced when the ref fetch fails, matching the two
branches of the source. -/
def refErrMsg (releaseTag : String) (code : Nat) : String :=
  (if isDevBranch releaseTag then "Failed to fetch branch: "
   else "Failed to fetch release tag: ") ++ Nat.repr code

/-- The resolver `fetchPRReleaseStatus` of `src/index.js`, returning the
Status Record together with the ordered list of upstream calls it made.
The `githubToken` only alters request headers and is threaded for
faithfulness. -/
def fetchPRReleaseStatus (env : Upstream) (repoOwner repoName : String)
    (prNumber : Nat) (releaseTag : String) (_githubToken : Option String) :
    StatusRecord × List UpstreamCall :=
  let prCall := UpstreamCall.fetchPR repoOwner repoName prNumber
  match env.pr repoOwner repoName prNumber with
  | .err code =>
      ({ status := "error",
         error := some ("Failed to fetch PR: " ++ Nat.repr code),
         pr_number := prNumber, release_tag := releaseTag }, [prCall])
  | .ok prData =>
      if prData.merged = false then
        ({ status := "not-merged", pr_number := prNumber,
           release_tag := releaseTag,
           message := some "PR is not merged yet" }, [prCall])
      else
        let mergeCommitSha := prData.merge_commit_sha
        let refCall := UpstreamCall.fetchRef repoOwner repoName (refPath releaseTag)
        match env.ref repoOwner repoName (refPath releaseTag) with
        | .err code =>
            ({ status := "error",
               error := some (refErrMsg releaseTag code),
               pr_number := prNumber, release_tag := releaseTag },
             [prCall, refCall])
        | .ok targetSha =>
            let targetType := if isDevBranch releaseTag then "branch" else "tag"
            let cmpCall := UpstreamCall.compareCommits repoOwner repoName
              mergeCommitSha targetSha
            match env.compare repoOwner repoName mergeCommitSha targetSha with
            | .err code =>
                ({ status := "error",
                   error := some ("Failed to compare commits: " ++ Nat.repr code),
                   pr_number := prNumber, release_tag := releaseTag },
                 [prCall, refCall, cmpCall])
            | .ok compareData =>
                let isInRelease := ["ahead", "identical"].contains compareData.status
                let isCherryPicked :=
                  if isInRelease then false
                  else compareData.commits.any fun commit =>
                    strIncludes commit.message mergeCommitSha ||
                    strIncludes commit.message prData.title
                ({ status := if isCherryPicked || isInRelease then "merged" else "not-yet",
                   pr_number := prNumber, release_tag := releaseTag,
                   target_type := some targetType,
                   merge_commit_sha := some mergeCommitSha,
                   pr_merged_at := some prData.merged_at,
                   is_in_release := some isInRelease,
                   is_cherry_picked := some isCherryPicked },
                 [prCall, refCall, cmpCall])

/-- The cache key built by `checkPRInRelease`:
`owner/repo/pr-N/release-TAG` (JavaScript template literal; the number is
interpolated in decimal). -/
def cacheKey (repoOwner repoName : String) (prNumber : Nat)
    (releaseTag : String) : String :=
  repoOwner ++ "/" ++ repoName ++ "/pr-" ++ Nat.repr prNumber ++
    "/release-" ++ releaseTag

/-- 24 hours in milliseconds: the staleness window
`hoursSinceCached < 24` with `hoursSinceCached = (now - cachedTime) / (1000*60*60)`. -/
def staleWindowMs : Int := 24 * 60 * 60 * 1000

/-- The cache-miss / stale path of `checkPRInRelease`: call the resolver,
stamp the result with the current ISO time, and write it back to KV under
the cache key. -/
def refreshResult (env : Upstream) (nowIso : String) (repoOwner repoName : String)
    (prNumber : Nat) (releaseTag : String) (githubToken : Option String) :
    StatusRecord × List UpstreamCall × List (String × StatusRecord) :=
  let result := fetchPRReleaseStatus env repoOwner repoName prNumber
    releaseTag githubToken
  let stamped := { result.1 with cached_at := some nowIso }
  (stamped, result.2, [(cacheKey repoOwner repoName prNumber releaseTag, stamped)])

/-- `checkPRInRelease` of `src/index.js`.  `dateMs` models
`new Date(s).getTime()` (parsing of the stored ISO stamp), `nowMs` the
current time in milliseconds, `nowIso` the ISO rendering of the current
time, and `cached` the parse of the KV entry under the cache key (or
`none`).  Returns the record handed back to the caller, the upstream calls
made, and the KV writes performed. -/
def checkPRInRelease (env : Upstream) (dateMs : String → Int) (nowMs : Int)
    (nowIso : String) (cached : Option StatusRecord)
    (repoOwner repoName : String) (prNumber : Nat) (releaseTag : String)
    (githubToken : Option String) :
    StatusRecord × List UpstreamCall × List (String × StatusRecord) :=
  match cached with
  | none => refreshResult env nowIso repoOwner repoName prNumber releaseTag githubToken
  | some cachedData =>
      if cachedData.status = "merged" then
        (cachedData, [], [])
      else if cachedData.status = "not-yet" || isDevBranch releaseTag then
        if nowMs - dateMs (cachedData.cached_at.getD "") < staleWindowMs then
          (cachedData, [], [])
        else refreshResult env nowIso repoOwner repoName prNumber releaseTag githubToken
      else refreshResult env nowIso repoOwner repoName prNumber releaseTag githubToken

/-! ### Concrete sample data

Fixed upstream environments and records used to exercise the theorems on
concrete inputs. -/

/-- Sample metadata of a merged pull request. -/
def prMergedSample : PRData :=
  { merged := true, merge_commit_sha := "abc123",
    merged_at := "2024-06-01T00:00:00Z", title := "Fix sensor update" }

/-- Sample metadata of an unmerged pull request. -/
def prOpenSample : PRData :=
  { merged := false, merge_commit_sha := "", merged_at := "",
    title := "Fix sensor update" }

/-- An upstream whose PR endpoint fails with HTTP 404. -/
def envPRErr : Upstream :=
  { pr := fun _ _ _ => .err 404,
    ref := fun _ _ _ => .err 500,
    compare := fun _ _ _ _ => .err 500 }

/-- An upstream where the PR is merged but the ref fetch fails with 404. -/
def envRefErr : Upstream :=
  { pr := fun _ _ _ => .ok prMergedSample,
    ref := fun _ _ _ => .err 404,
    compare := fun _ _ _ _ => .err 500 }

/-- An upstream where the PR is merged, the ref resolves, but the
comparison fails with 500. -/
def envCmpErr : Upstream :=
  { pr := fun _ _ _ => .ok prMergedSample,
    ref := fun _ _ _ => .ok "beef01",
    compare := fun _ _ _ _ => .err 500 }

/-- An upstream where the PR is unmerged. -/
def envOpenPR : Upstream :=
  { pr := fun _ _ _ => .ok prOpenSample,
    ref := fun _ _ _ => .ok "beef01",
    compare := fun _ _ _ _ => .ok { status := "behind", commits := [] } }

/-- An upstream where the target is strictly ahead of the merge commit. -/
def envAhead : Upstream :=
  { pr := fun _ _ _ => .ok prMergedSample,
    ref := fun _ _ _ => .ok "beef01",
    compare := fun _ _ _ _ => .ok { status := "ahead", commits := [] } }

/-- An upstream where the comparison diverged but a commit in the range
references the merge-commit SHA in its message (a `-x` cherry-pick). -/
def envDiverged : Upstream :=
  { pr := fun _ _ _ => .ok prMergedSample,
    ref := fun _ _ _ => .ok "beef01",
    compare := fun _ _ _ _ =>
      .ok { status := "diverged",
            commits := [{ message := "some change (cherry picked from commit abc123)" }] } }

/-- A stored cache record with status `merged`. -/
def mergedCachedRecord : StatusRecord :=
  { status := "merged", pr_number := 1, release_tag := "dev",
    cached_at := some "2024-06-01T00:00:00Z" }

/-- A stored cache record with status `not-merged`. -/
def notMergedCachedRecord : StatusRecord :=
  { status := "not-merged", pr_number := 1, release_tag := "2024.6.0",
    cached_at := some "2024-06-01T00:00:00Z" }

/-- A stored cache record with status `not-yet`. -/
def notYetCachedRecord : StatusRecord :=
  { status := "not-yet", pr_number := 1, release_tag := "2024.6.0",
    cached_at := some "2024-06-01T00:00:00Z" }

/-! ### Decimal representation helpers

`Nat.repr` is defined in core through the fuel-driven `Nat.toDigitsCore`;
`digitsRep` is the fuel-free decimal digit list used to reason about it,
and `digitsVal` decodes it back. -/

/-- The decimal digit characters of `n`, most significant first. -/
def digitsRep (n : Nat) : List Char :=
  if h : n / 10 = 0 then [Nat.digitChar (n % 10)]
  else digitsRep (n / 10) ++ [Nat.digitChar (n % 10)]
termination_by n
decreasing_by exact Nat.div_lt_self (by omega) (by omega)

/-- Decode a digit-character list back to the natural number it denotes. -/
def digitsVal (l : List Char) : Nat :=
  l.foldl (fun a c => 10 * a + (c.toNat - 48)) 0

/-! ### Bridging lemmas -/

/-- The scan `listIncludes` decides contiguous containment. -/
theorem listIncludes_iff (sub l : List Char) :
    listIncludes sub l = true ↔ sub <:+: l := by
  induction l with
  | nil => simp [listIncludes]
  | cons c t ih =>
      simp [listIncludes, ih, List.infix_cons_iff]

/-- `strIncludes` decides substring containment on the character lists. -/
theorem strIncludes_iff (s sub : String) :
    strIncludes s sub = true ↔ sub.data <:+: s.data :=
  listIncludes_iff sub.data s.data

/-- With enough fuel, core's `Nat.toDigitsCore` produces the decimal digit
list followed by the accumulator. -/
theorem toDigitsCore_eq_digitsRep (fuel : Nat) :
    ∀ (n : Nat) (ds : List Char), n < fuel →
      Nat.toDigitsCore 10 fuel n ds = digitsRep n ++ ds := by
  induction fuel with
  | zero => intro n ds h; omega
  | succ f ih =>
      intro n ds h
      rw [Nat.toDigitsCore]
      by_cases h10 : n / 10 = 0
      · rw [digitsRep]
        simp [h10]
      · have hn : n / 10 < f := by
          have h1 : n / 10 < n := Nat.div_lt_self (by omega) (by omega)
          omega
        rw [if_neg h10, ih (n / 10) _ hn]
        conv_rhs => rw [digitsRep]
        simp [h10]

/-- The character data of `Nat.repr n` is the decimal digit list. -/
theorem repr_data (n : Nat) : (Nat.repr n).data = digitsRep n := by
  rw [Nat.repr, Nat.toDigits,
    toDigitsCore_eq_digitsRep (n + 1) n [] (Nat.lt_succ_self n)]
  simp [List.asString]

/-- Decimal digit characters are never the key separator. -/
theorem digitChar_ne_sep (m : Nat) (h : m < 10) : Nat.digitChar m ≠ '/' := by
  interval_cases m <;> decide

/-- Decoding a decimal digit character. -/
theorem digitChar_toNat (m : Nat) (h : m < 10) :
    (Nat.digitChar m).toNat - 48 = m := by
  interval_cases m <;> decide

/-- The decimal digit list contains no separator character. -/
theorem digitsRep_ne_sep (n : Nat) : '/' ∉ digitsRep n := by
  induction n using Nat.strong_induction_on with
  | _ n ih =>
      rw [digitsRep]
      by_cases h10 : n / 10 = 0
      · rw [dif_pos h10]
        intro hc
        rw [List.mem_singleton] at hc
        exact digitChar_ne_sep (n % 10) (by omega) hc.symm
      · rw [dif_neg h10]
        intro hc
        rcases List.mem_append.mp hc with hc | hc
        · exact ih (n / 10) (Nat.div_lt_self (by omega) (by omega)) hc
        · rw [List.mem_singleton] at hc
          exact digitChar_ne_sep (n % 10) (by omega) hc.symm

/-- `digitsVal` decodes `digitsRep`. -/
theorem digitsVal_digitsRep (n : Nat) : digitsVal (digitsRep n) = n := by
  induction n using Nat.strong_induction_on with
  | _ n ih =>
      rw [digitsRep]
      by_cases h10 : n / 10 = 0
      · simp only [h10, if_pos rfl]
        simp [digitsVal, digitChar_toNat (n % 10) (by omega)]
        omega
      · simp only [dif_neg h10]
        unfold digitsVal at *
        rw [List.foldl_append]
        rw [ih (n / 10) (Nat.div_lt_self (by omega) (by omega))]
        simp [digitChar_toNat (n % 10) (by omega)]
        omega

/-- `Nat.repr` is injective. -/
theorem repr_inj_nat {n n' : Nat} (h : Nat.repr n = Nat.repr n') : n = n' := by
  have hd : digitsRep n = digitsRep n' := by
    rw [← repr_data, ← repr_data, h]
  rw [← digitsVal_digitsRep n, ← digitsVal_digitsRep n', hd]

/-- Cancelling a separator-terminated segment: if neither head segment
contains the separator, equal concatenations split componentwise. -/
theorem append_sep_inj {a a' r r' : List Char} (ha : '/' ∉ a) (ha' : '/' ∉ a')
    (h : a ++ '/' :: r = a' ++ '/' :: r') : a = a' ∧ r = r' := by
  induction a generalizing a' with
  | nil =>
      cases a' with
      | nil => simpa using h
      | cons y s =>
          simp only [List.nil_append, List.cons_append, List.cons.injEq] at h
          exact absurd (List.mem_cons_self y s) (h.1 ▸ ha')
  | cons x t ih =>
      cases a' with
      | nil =>
          simp only [List.nil_append, List.cons_append, List.cons.injEq] at h
          exact absurd (List.mem_cons_self x t) (h.1.symm ▸ ha)
      | cons y s =>
          simp only [List.cons_append, List.cons.injEq] at h
          have ht := ih (fun hc => ha (List.mem_cons_of_mem x hc))
            (fun hc => ha' (List.mem_cons_of_mem y hc)) h.2
          exact ⟨by rw [h.1, ht.1], ht.2⟩

/-- The character data of a cache key, in separator-split form. -/
theorem cacheKey_data (o r : String) (n : Nat) (t : String) :
    (cacheKey o r n t).data =
      o.data ++ '/' :: (r.data ++ '/' :: ('p' :: 'r' :: '-' ::
        ((Nat.repr n).data ++ '/' :: ('r' :: 'e' :: 'l' :: 'e' :: 'a' ::
          's' :: 'e' :: '-' :: t.data)))) := by
  have h1 : ("/" : String).data = ['/'] := rfl
  have h2 : ("/pr-" : String).data = ['/', 'p', 'r', '-'] := rfl
  have h3 : ("/release-" : String).data = ['/', 'r', 'e', 'l', 'e', 'a', 's', 'e', '-'] := rfl
  simp [cacheKey, String.data_append, h1, h2, h3]

/-! ### Resolver shape lemmas

One lemma per control-flow exit of `fetchPRReleaseStatus`, each giving the
exact record and call trace produced. -/

/-- Exit 1: the PR fetch fails. -/
theorem resolver_pr_err (env : Upstream) (o r : String) (n : Nat)
    (t : String) (tok : Option String) (code : Nat)
    (hpr : env.pr o r n = .err code) :
    fetchPRReleaseStatus env o r n t tok =
      ({ status := "error",
         error := some ("Failed to fetch PR: " ++ Nat.repr code),
         pr_number := n, release_tag := t }, [.fetchPR o r n]) := by
  simp [fetchPRReleaseStatus, hpr]

/-- Exit 2: the PR is not merged. -/
theorem resolver_not_merged (env : Upstream) (o r : String) (n : Nat)
    (t : String) (tok : Option String) (prData : PRData)
    (hpr : env.pr o r n = .ok prData) (hm : prData.merged = false) :
    fetchPRReleaseStatus env o r n t tok =
      ({ status := "not-merged", pr_number := n, release_tag := t,
         message := some "PR is not merged yet" }, [.fetchPR o r n]) := by
  simp [fetchPRReleaseStatus, hpr, hm]

/-- Exit 3: the ref fetch fails. -/
theorem resolver_ref_err (env : Upstream) (o r : String) (n : Nat)
    (t : String) (tok : Option String) (prData : PRData) (code : Nat)
    (hpr : env.pr o r n = .ok prData) (hm : prData.merged = true)
    (href : env.ref o r (refPath t) = .err code) :
    fetchPRReleaseStatus env o r n t tok =
      ({ status := "error", error := some (refErrMsg t code),
         pr_number := n, release_tag := t },
       [.fetchPR o r n, .fetchRef o r (refPath t)]) := by
  simp [fetchPRReleaseStatus, hpr, hm, href]

/-- Exit 4: the comparison fails. -/
theorem resolver_cmp_err (env : Upstream) (o r : String) (n : Nat)
    (t : String) (tok : Option String) (prData : PRData) (sha : String)
    (code : Nat)
    (hpr : env.pr o r n = .ok prData) (hm : prData.merged = true)
    (href : env.ref o r (refPath t) = .ok sha)
    (hcmp : env.compare o r prData.merge_commit_sha sha = .err code) :
    fetchPRReleaseStatus env o r n t tok =
      ({ status := "error",
         error := some ("Failed to compare commits: " ++ Nat.repr code),
         pr_number := n, release_tag := t },
       [.fetchPR o r n, .fetchRef o r (refPath t),
        .compareCommits o r prData.merge_commit_sha sha]) := by
  simp [fetchPRReleaseStatus, hpr, hm, href, hcmp]

/-- Exit 5: all three upstream calls succeed. -/
theorem resolver_success (env : Upstream) (o r : String) (n : Nat)
    (t : String) (tok : Option String) (prData : PRData) (sha : String)
    (cmp : CompareData)
    (hpr : env.pr o r n = .ok prData) (hm : prData.merged = true)
    (href : env.ref o r (refPath t) = .ok sha)
    (hcmp : env.compare o r prData.merge_commit_sha sha = .ok cmp) :
    fetchPRReleaseStatus env o r n t tok =
      ({ status :=
           if ((if ["ahead", "identical"].contains cmp.status then false
                else cmp.commits.any fun commit =>
                  strIncludes commit.message prData.merge_commit_sha ||
                  strIncludes commit.message prData.title) ||
               ["ahead", "identical"].contains cmp.status) then "merged"
           else "not-yet",
         pr_number := n, release_tag := t,
         target_type := some (if isDevBranch t then "branch" else "tag"),
         merge_commit_sha := some prData.merge_commit_sha,
         pr_merged_at := some prData.merged_at,
         is_in_release := some (["ahead", "identical"].contains cmp.status),
         is_cherry_picked :=
           some (if ["ahead", "identical"].contains cmp.status then false
                 else cmp.commits.any fun commit =>
                   strIncludes commit.message prData.merge_commit_sha ||
                   strIncludes commit.message prData.title) },
       [.fetchPR o r n, .fetchRef o r (refPath t),
        .compareCommits o r prData.merge_commit_sha sha]) := by
  simp [fetchPRReleaseStatus, hpr, hm, href, hcmp]

/-- A string always includes its own right append part. -/
theorem strIncludes_append_right (a b : String) :
    strIncludes (a ++ b) b = true := by
  rw [strIncludes_iff, String.data_append]
  exact ⟨a.data, [], by simp⟩

/-! ### Claim theorems -/

/-- C1: for a merged pull request whose comparison relation is neither
`ahead` nor `identical`, `is_cherry_picked` is set to `true` exactly when
some commit in the range-comparison response has a message containing the
merge-commit SHA as a substring or containing the PR title as a substring;
and the final status is `merged` exactly when `is_in_release` or
`is_cherry_picked` is true, and `not-yet` when neither is. -/
theorem c1_cherry_pick_heuristic (env : Upstream) (o r : String) (n : Nat)
    (t : String) (tok : Option String) (prData : PRData) (sha : String)
    (cmp : CompareData)
    (hpr : env.pr o r n = .ok prData) (hm : prData.merged = true)
    (href : env.ref o r (refPath t) = .ok sha)
    (hcmp : env.compare o r prData.merge_commit_sha sha = .ok cmp)
    (hrel : ¬(cmp.status = "ahead" ∨ cmp.status = "identical")) :
    ((fetchPRReleaseStatus env o r n t tok).1.is_cherry_picked = some true ↔
      ∃ c ∈ cmp.commits,
        prData.merge_commit_sha.data <:+: c.message.data ∨
        prData.title.data <:+: c.message.data) ∧
    ((fetchPRReleaseStatus env o r n t tok).1.status = "merged" ↔
      ((fetchPRReleaseStatus env o r n t tok).1.is_in_release = some true ∨
       (fetchPRReleaseStatus env o r n t tok).1.is_cherry_picked = some true)) ∧
    (¬((fetchPRReleaseStatus env o r n t tok).1.is_in_release = some true ∨
       (fetchPRReleaseStatus env o r n t tok).1.is_cherry_picked = some true) →
      (fetchPRReleaseStatus env o r n t tok).1.status = "not-yet") := by
  rw [resolver_success env o r n t tok prData sha cmp hpr hm href hcmp]
  have hcontains : ["ahead", "identical"].contains cmp.status = false := by
    simpa [List.contains] using hrel
  rw [hcontains]
  refine ⟨?_, ?_, ?_⟩
  · simp [List.any_eq_true, strIncludes_iff]
  · by_cases hcp : (cmp.commits.any fun commit =>
        strIncludes commit.message prData.merge_commit_sha ||
        strIncludes commit.message prData.title) = true
    · simp [hcp]
    · simp [hcp]
  · by_cases hcp : (cmp.commits.any fun commit =>
        strIncludes commit.message prData.merge_commit_sha ||
        strIncludes commit.message prData.title) = true
    · simp [hcp]
    · simp [hcp]

/-- C1 witness: a diverged comparison with a `-x`-style cherry-picked
commit referencing the merge-commit SHA. -/
theorem c1_witness :
    ((fetchPRReleaseStatus envDiverged "o" "r" 1 "2024.6.0" none).1.is_cherry_picked
        = some true ↔
      ∃ c ∈ [({ message := "some change (cherry picked from commit abc123)" } :
          CommitInfo)],
        prMergedSample.merge_commit_sha.data <:+: c.message.data ∨
        prMergedSample.title.data <:+: c.message.data) ∧
    ((fetchPRReleaseStatus envDiverged "o" "r" 1 "2024.6.0" none).1.status
        = "merged" ↔
      ((fetchPRReleaseStatus envDiverged "o" "r" 1 "2024.6.0" none).1.is_in_release
          = some true ∨
       (fetchPRReleaseStatus envDiverged "o" "r" 1 "2024.6.0" none).1.is_cherry_picked
          = some true)) ∧
    (¬((fetchPRReleaseStatus envDiverged "o" "r" 1 "2024.6.0" none).1.is_in_release
          = some true ∨
       (fetchPRReleaseStatus envDiverged "o" "r" 1 "2024.6.0" none).1.is_cherry_picked
          = some true) →
      (fetchPRReleaseStatus envDiverged "o" "r" 1 "2024.6.0" none).1.status
        = "not-yet") :=
  c1_cherry_pick_heuristic envDiverged "o" "r" 1 "2024.6.0" none prMergedSample
    "beef01"
    { status := "diverged",
      commits := [{ message := "some change (cherry picked from commit abc123)" }] }
    rfl rfl rfl rfl (by decide)

/-- C6: on any upstream HTTP failure the resolver fails closed: it returns
an `error`-status record whose message embeds the failing HTTP status
code, and makes no upstream call beyond the failing one. -/
theorem c6_upstream_failure_fails_closed (env : Upstream) (o r : String)
    (n : Nat) (t : String) (tok : Option String) :
    (∀ code, env.pr o r n = .err code →
      fetchPRReleaseStatus env o r n t tok =
        ({ status := "error",
           error := some ("Failed to fetch PR: " ++ Nat.repr code),
           pr_number := n, release_tag := t }, [.fetchPR o r n]) ∧
      strIncludes ("Failed to fetch PR: " ++ Nat.repr code) (Nat.repr code)
        = true) ∧
    (∀ prData code, env.pr o r n = .ok prData → prData.merged = true →
      env.ref o r (refPath t) = .err code →
      fetchPRReleaseStatus env o r n t tok =
        ({ status := "error", error := some (refErrMsg t code),
           pr_number := n, release_tag := t },
         [.fetchPR o r n, .fetchRef o r (refPath t)]) ∧
      strIncludes (refErrMsg t code) (Nat.repr code) = true) ∧
    (∀ prData sha code, env.pr o r n = .ok prData → prData.merged = true →
      env.ref o r (refPath t) = .ok sha →
      env.compare o r prData.merge_commit_sha sha = .err code →
      fetchPRReleaseStatus env o r n t tok =
        ({ status := "error",
           error := some ("Failed to compare commits: " ++ Nat.repr code),
           pr_number := n, release_tag := t },
         [.fetchPR o r n, .fetchRef o r (refPath t),
          .compareCommits o r prData.merge_commit_sha sha]) ∧
      strIncludes ("Failed to compare commits: " ++ Nat.repr code)
        (Nat.repr code) = true) :=
  ⟨fun code hpr =>
    ⟨resolver_pr_err env o r n t tok code hpr, strIncludes_append_right _ _⟩,
   fun prData code hpr hm href =>
    ⟨resolver_ref_err env o r n t tok prData code hpr hm href,
     strIncludes_append_right _ _⟩,
   fun prData sha code hpr hm href hcmp =>
    ⟨resolver_cmp_err env o r n t tok prData sha code hpr hm href hcmp,
     strIncludes_append_right _ _⟩⟩

/-- C6 witness: concrete failures of each of the three upstream calls. -/
theorem c6_witness :
    (fetchPRReleaseStatus envPRErr "o" "r" 1 "2024.6.0" none =
        ({ status := "error",
           error := some ("Failed to fetch PR: " ++ Nat.repr 404),
           pr_number := 1, release_tag := "2024.6.0" },
         [.fetchPR "o" "r" 1]) ∧
      strIncludes ("Failed to fetch PR: " ++ Nat.repr 404) (Nat.repr 404)
        = true) ∧
    (fetchPRReleaseStatus envRefErr "o" "r" 1 "2024.6.0" none =
        ({ status := "error", error := some (refErrMsg "2024.6.0" 404),
           pr_number := 1, release_tag := "2024.6.0" },
         [.fetchPR "o" "r" 1, .fetchRef "o" "r" (refPath "2024.6.0")]) ∧
      strIncludes (refErrMsg "2024.6.0" 404) (Nat.repr 404) = true) ∧
    (fetchPRReleaseStatus envCmpErr "o" "r" 1 "2024.6.0" none =
        ({ status := "error",
           error := some ("Failed to compare commits: " ++ Nat.repr 500),
           pr_number := 1, release_tag := "2024.6.0" },
         [.fetchPR "o" "r" 1, .fetchRef "o" "r" (refPath "2024.6.0"),
          .compareCommits "o" "r" prMergedSample.merge_commit_sha "beef01"]) ∧
      strIncludes ("Failed to compare commits: " ++ Nat.repr 500)
        (Nat.repr 500) = true) :=
  ⟨(c6_upstream_failure_fails_closed envPRErr "o" "r" 1 "2024.6.0" none).1
      404 rfl,
   (c6_upstream_failure_fails_closed envRefErr "o" "r" 1 "2024.6.0" none).2.1
      prMergedSample 404 rfl rfl rfl,
   (c6_upstream_failure_fails_closed envCmpErr "o" "r" 1 "2024.6.0" none).2.2
      prMergedSample "beef01" 500 rfl rfl rfl rfl⟩

/-- C2: for a merged pull request whose upstream calls all succeed, the
resolver sets `is_in_release` to `true` exactly when the range-comparison
relation is `ahead` or `identical`, and to `false` for every other
relation. -/
theorem c2_in_release_relation (env : Upstream) (o r : String) (n : Nat)
    (t : String) (tok : Option String) (prData : PRData) (sha : String)
    (cmp : CompareData)
    (hpr : env.pr o r n = .ok prData) (hm : prData.merged = true)
    (href : env.ref o r (refPath t) = .ok sha)
    (hcmp : env.compare o r prData.merge_commit_sha sha = .ok cmp) :
    ((fetchPRReleaseStatus env o r n t tok).1.is_in_release = some true ↔
      (cmp.status = "ahead" ∨ cmp.status = "identical")) ∧
    ((fetchPRReleaseStatus env o r n t tok).1.is_in_release = some false ↔
      ¬(cmp.status = "ahead" ∨ cmp.status = "identical")) := by
  rw [resolver_success env o r n t tok prData sha cmp hpr hm href hcmp]
  simp [List.contains]

/-- C2 witness: a concrete `ahead` comparison. -/
theorem c2_witness :
    ((fetchPRReleaseStatus envAhead "o" "r" 1 "2024.6.0" none).1.is_in_release
        = some true ↔
      (("ahead" : String) = "ahead" ∨ ("ahead" : String) = "identical")) ∧
    ((fetchPRReleaseStatus envAhead "o" "r" 1 "2024.6.0" none).1.is_in_release
        = some false ↔
      ¬(("ahead" : String) = "ahead" ∨ ("ahead" : String) = "identical")) :=
  c2_in_release_relation envAhead "o" "r" 1 "2024.6.0" none prMergedSample
    "beef01" { status := "ahead", commits := [] } rfl rfl rfl rfl

/-- C3: a stored record with status `merged` is always returned unchanged,
with no upstream calls and no cache writes, whatever the elapsed time and
the target ref identifier. -/
theorem c3_merged_cache_permanent (env : Upstream) (dateMs : String → Int)
    (nowMs : Int) (nowIso : String) (cd : StatusRecord) (o r : String)
    (n : Nat) (t : String) (tok : Option String) (h : cd.status = "merged") :
    checkPRInRelease env dateMs nowMs nowIso (some cd) o r n t tok =
      (cd, [], []) := by
  simp [checkPRInRelease, h]

/-- C3 witness: a merged record far past the 24-hour window is still
reused. -/
theorem c3_witness :
    checkPRInRelease envPRErr (fun _ => 0) 999999999999 "x"
      (some mergedCachedRecord) "o" "r" 1 "2024.6.0" none =
      (mergedCachedRecord, [], []) :=
  c3_merged_cache_permanent envPRErr (fun _ => 0) 999999999999 "x"
    mergedCachedRecord "o" "r" 1 "2024.6.0" none rfl

/-- C7: when the pull-request fetch succeeds but the PR is not merged, the
resolver returns exactly the `not-merged` record — no `merge_commit_sha`
field — and makes no further upstream calls. -/
theorem c7_not_merged_terminal (env : Upstream) (o r : String) (n : Nat)
    (t : String) (tok : Option String) (prData : PRData)
    (hpr : env.pr o r n = .ok prData) (hm : prData.merged = false) :
    fetchPRReleaseStatus env o r n t tok =
      ({ status := "not-merged", pr_number := n, release_tag := t,
         message := some "PR is not merged yet" },
       [UpstreamCall.fetchPR o r n]) := by
  simp [fetchPRReleaseStatus, hpr, hm]

/-- C7 witness: a concrete unmerged PR. -/
theorem c7_witness :
    fetchPRReleaseStatus envOpenPR "o" "r" 7 "2024.6.0" none =
      ({ status := "not-merged", pr_number := 7, release_tag := "2024.6.0",
         message := some "PR is not merged yet" },
       [UpstreamCall.fetchPR "o" "r" 7]) :=
  c7_not_merged_terminal envOpenPR "o" "r" 7 "2024.6.0" none prOpenSample
    rfl rfl

/-- C9: the resolver is deterministic with respect to upstream state: two
upstreams that give the same answers to the three queries for this
repository yield identical Status Records (and the authentication token
does not influence the record). -/
theorem c9_resolver_deterministic (env env' : Upstream) (o r : String)
    (n : Nat) (t : String) (tok tok' : Option String)
    (hpr : env.pr o r n = env'.pr o r n)
    (href : ∀ p, env.ref o r p = env'.ref o r p)
    (hcmp : ∀ b h, env.compare o r b h = env'.compare o r b h) :
    fetchPRReleaseStatus env o r n t tok =
      fetchPRReleaseStatus env' o r n t tok' := by
  unfold fetchPRReleaseStatus
  rw [hpr]
  simp only [href, hcmp]

/-- C9 witness: repeated resolution against a fixed upstream. -/
theorem c9_witness :
    fetchPRReleaseStatus envAhead "o" "r" 1 "2024.6.0" none =
      fetchPRReleaseStatus envAhead "o" "r" 1 "2024.6.0" none :=
  c9_resolver_deterministic envAhead envAhead "o" "r" 1 "2024.6.0" none none
    rfl (fun _ => rfl) (fun _ _ => rfl)

/-- C10: `is_in_release` and `is_cherry_picked` are never both true: the
cherry-pick heuristic only runs when direct ancestry failed. -/
theorem c10_flags_mutually_exclusive (env : Upstream) (o r : String)
    (n : Nat) (t : String) (tok : Option String)
    (h : (fetchPRReleaseStatus env o r n t tok).1.is_in_release = some true) :
    (fetchPRReleaseStatus env o r n t tok).1.is_cherry_picked = some false := by
  cases hpr : env.pr o r n with
  | err code =>
      rw [resolver_pr_err env o r n t tok code hpr] at h
      simp at h
  | ok prData =>
      cases hm : prData.merged with
      | false =>
          rw [resolver_not_merged env o r n t tok prData hpr hm] at h
          simp at h
      | true =>
          cases href : env.ref o r (refPath t) with
          | err code =>
              rw [resolver_ref_err env o r n t tok prData code hpr hm href] at h
              simp at h
          | ok sha =>
              cases hcmp : env.compare o r prData.merge_commit_sha sha with
              | err code =>
                  rw [resolver_cmp_err env o r n t tok prData sha code
                    hpr hm href hcmp] at h
                  simp at h
              | ok cmp =>
                  rw [resolver_success env o r n t tok prData sha cmp
                    hpr hm href hcmp] at h ⊢
                  simp only [Option.some.injEq] at h
                  rw [if_pos h]

/-- C10 witness: a direct-ancestry hit yields `is_cherry_picked = false`. -/
theorem c10_witness :
    (fetchPRReleaseStatus envAhead "o" "r" 1 "2024.6.0" none).1.is_cherry_picked
      = some false :=
  c10_flags_mutually_exclusive envAhead "o" "r" 1 "2024.6.0" none (by decide)

/-- C4 counterexample: the claim asserts that every stored record whose
target ref ends in the moving-branch suffix is refreshed once 24 hours
have elapsed; but a `merged` record with target `dev` cached 25 hours ago
is still returned unchanged (the permanent-merged rule is checked first),
not refreshed. -/
theorem c4_counterexample :
    checkPRInRelease envPRErr (fun _ => 0) (25 * 60 * 60 * 1000)
      "2024-06-02T01:00:00Z" (some mergedCachedRecord) "o" "r" 1 "dev" none =
      (mergedCachedRecord, [], []) ∧
    checkPRInRelease envPRErr (fun _ => 0) (25 * 60 * 60 * 1000)
      "2024-06-02T01:00:00Z" (some mergedCachedRecord) "o" "r" 1 "dev" none ≠
      refreshResult envPRErr "2024-06-02T01:00:00Z" "o" "r" 1 "dev" none :=
  ⟨by decide, by decide⟩

/-- C4 (amended): for every stored `not-yet` record, and for every stored
record with status other than `merged` whose target ref ends in the
moving-branch suffix, the gate reuses the record when strictly less than
24 hours elapsed since `cached_at` and refreshes it otherwise. -/
theorem c4_staleness_window (env : Upstream) (dateMs : String → Int)
    (nowMs : Int) (nowIso : String) (cd : StatusRecord) (o r : String)
    (n : Nat) (t : String) (tok : Option String)
    (h : cd.status = "not-yet" ∨
      (cd.status ≠ "merged" ∧ isDevBranch t = true)) :
    (nowMs - dateMs (cd.cached_at.getD "") < staleWindowMs →
      checkPRInRelease env dateMs nowMs nowIso (some cd) o r n t tok =
        (cd, [], [])) ∧
    (staleWindowMs ≤ nowMs - dateMs (cd.cached_at.getD "") →
      checkPRInRelease env dateMs nowMs nowIso (some cd) o r n t tok =
        refreshResult env nowIso o r n t tok) := by
  have hne : ¬(cd.status = "merged") := by
    rcases h with h | h
    · rw [h]; decide
    · exact h.1
  have hcond : (decide (cd.status = "not-yet") || isDevBranch t) = true := by
    rcases h with h | h
    · simp [h]
    · simp [h.2]
  constructor
  · intro hlt
    simp only [checkPRInRelease]
    rw [if_neg hne, if_pos hcond, if_pos hlt]
  · intro hge
    simp only [checkPRInRelease]
    rw [if_neg hne, if_pos hcond, if_neg (not_lt.mpr hge)]

/-- C4 witness: a `not-yet` record cached 23h59m ago is reused; cached
24h01m ago it is refreshed. -/
theorem c4_witness :
    checkPRInRelease envPRErr (fun _ => 0) 86340000 "2024-06-01T23:59:00Z"
      (some notYetCachedRecord) "o" "r" 1 "2024.6.0" none =
      (notYetCachedRecord, [], []) ∧
    checkPRInRelease envPRErr (fun _ => 0) 86460000 "2024-06-02T00:01:00Z"
      (some notYetCachedRecord) "o" "r" 1 "2024.6.0" none =
      refreshResult envPRErr "2024-06-02T00:01:00Z" "o" "r" 1 "2024.6.0" none :=
  ⟨(c4_staleness_window envPRErr (fun _ => 0) 86340000 "2024-06-01T23:59:00Z"
      notYetCachedRecord "o" "r" 1 "2024.6.0" none (Or.inl rfl)).1 (by decide),
   (c4_staleness_window envPRErr (fun _ => 0) 86460000 "2024-06-02T00:01:00Z"
      notYetCachedRecord "o" "r" 1 "2024.6.0" none (Or.inl rfl)).2 (by decide)⟩

/-- C5 counterexample: the claim asserts that a stored `not-merged` record
is reused unconditionally; but with a non-`dev` target the gate refreshes
it immediately (here: zero elapsed time), falling through to a new fetch
and cache write. -/
theorem c5_counterexample :
    checkPRInRelease envPRErr (fun _ => 0) 0 "2024-06-01T00:00:00Z"
      (some notMergedCachedRecord) "o" "r" 1 "2024.6.0" none ≠
      (notMergedCachedRecord, [], []) ∧
    checkPRInRelease envPRErr (fun _ => 0) 0 "2024-06-01T00:00:00Z"
      (some notMergedCachedRecord) "o" "r" 1 "2024.6.0" none =
      refreshResult envPRErr "2024-06-01T00:00:00Z" "o" "r" 1 "2024.6.0" none :=
  ⟨by decide, by decide⟩

/-- C5 (amended): a stored `not-merged` or `error` record is refreshed
unconditionally when the target ref does not end in the moving-branch
suffix; when it does, the record falls under the 24-hour staleness
window. -/
theorem c5_not_merged_error_policy (env : Upstream) (dateMs : String → Int)
    (nowMs : Int) (nowIso : String) (cd : StatusRecord) (o r : String)
    (n : Nat) (t : String) (tok : Option String)
    (h : cd.status = "not-merged" ∨ cd.status = "error") :
    checkPRInRelease env dateMs nowMs nowIso (some cd) o r n t tok =
      (if isDevBranch t then
        (if nowMs - dateMs (cd.cached_at.getD "") < staleWindowMs then
          ((cd, [], []) :
            StatusRecord × List UpstreamCall × List (String × StatusRecord))
         else refreshResult env nowIso o r n t tok)
       else refreshResult env nowIso o r n t tok) := by
  have hne : ¬(cd.status = "merged") := by
    rcases h with h | h <;> rw [h] <;> decide
  have hny : ¬(cd.status = "not-yet") := by
    rcases h with h | h <;> rw [h] <;> decide
  simp only [checkPRInRelease]
  rw [if_neg hne]
  by_cases hdev : isDevBranch t = true
  · rw [if_pos (by simp [hdev]), if_pos hdev]
  · have hdf : isDevBranch t = false := by
      revert hdev; cases isDevBranch t <;> simp
    rw [if_neg (by simp [hny, hdf]), if_neg hdev]

/-- C5 witness: a concrete `not-merged` record against a tag target is
refreshed. -/
theorem c5_witness :
    checkPRInRelease envPRErr (fun _ => 0) 0 "2024-06-01T00:00:00Z"
      (some notMergedCachedRecord) "o" "r" 1 "2024.6.0" none =
      (if isDevBranch "2024.6.0" then
        (if (0 : Int) - 0 < staleWindowMs then
          ((notMergedCachedRecord, [], []) :
            StatusRecord × List UpstreamCall × List (String × StatusRecord))
         else refreshResult envPRErr "2024-06-01T00:00:00Z" "o" "r" 1
           "2024.6.0" none)
       else refreshResult envPRErr "2024-06-01T00:00:00Z" "o" "r" 1
         "2024.6.0" none) :=
  c5_not_merged_error_policy envPRErr (fun _ => 0) 0 "2024-06-01T00:00:00Z"
    notMergedCachedRecord "o" "r" 1 "2024.6.0" none (Or.inl rfl)

/-- C8 counterexample: the key function is not injective on arbitrary
strings — an owner containing the separator collides with a repo
containing it. -/
theorem c8_counterexample :
    cacheKey "a/b" "c" 1 "t" = cacheKey "a" "b/c" 1 "t" ∧
    ¬(("a/b" : String) = "a" ∧ ("c" : String) = "b/c") :=
  ⟨by decide, by decide⟩

/-- C8 (amended): the cache key is deterministic, and injective on tuples
whose owner and repo components contain no `/` character. -/
theorem c8_cache_key_injective (o r o' r' : String) (n n' : Nat)
    (t t' : String) (ho : '/' ∉ o.data) (hr : '/' ∉ r.data)
    (ho' : '/' ∉ o'.data) (hr' : '/' ∉ r'.data)
    (h : cacheKey o r n t = cacheKey o' r' n' t') :
    cacheKey o r n t = cacheKey o r n t ∧
    (o = o' ∧ r = r' ∧ n = n' ∧ t = t') := by
  refine ⟨rfl, ?_⟩
  have hd : (cacheKey o r n t).data = (cacheKey o' r' n' t').data := by rw [h]
  rw [cacheKey_data, cacheKey_data] at hd
  obtain ⟨h1, hd⟩ := append_sep_inj ho ho' hd
  obtain ⟨h2, hd⟩ := append_sep_inj hr hr' hd
  simp only [List.cons.injEq] at hd
  obtain ⟨-, -, -, hd⟩ := hd
  have hrn : '/' ∉ (Nat.repr n).data := by
    rw [repr_data]; exact digitsRep_ne_sep n
  have hrn' : '/' ∉ (Nat.repr n').data := by
    rw [repr_data]; exact digitsRep_ne_sep n'
  obtain ⟨h3, hd⟩ := append_sep_inj hrn hrn' hd
  simp only [List.cons.injEq] at hd
  obtain ⟨-, -, -, -, -, -, -, -, hd⟩ := hd
  exact ⟨String.ext h1, String.ext h2, repr_inj_nat (String.ext h3),
    String.ext hd⟩

/-- C8 witness: a concrete slash-free tuple. -/
theorem c8_witness :
    cacheKey "esphome" "esphome" 123 "2024.6.0" =
      cacheKey "esphome" "esphome" 123 "2024.6.0" ∧
    (("esphome" : String) = "esphome" ∧ ("esphome" : String) = "esphome" ∧
     (123 : Nat) = 123 ∧ ("2024.6.0" : String) = "2024.6.0") :=
  c8_cache_key_injective "esphome" "esphome" "esphome" "esphome" 123 123
    "2024.6.0" "2024.6.0" (by decide) (by decide) (by decide) (by decide) rfl

end PRChecker
